import Mathlib

/-!
Shallow embedding of the SocketIO event layer of `src/app.py`
(chat_Application). We model the in-memory server state (MongoDB
collections restricted to the fields the socket handlers touch, the
per-connection Flask session, the `active_users` dict and the SocketIO
room membership) and translate each socket event handler
(`handle_authenticate`, `handle_join_room`, `handle_leave_room`,
`handle_send_message`, `handle_typing`, `handle_stop_typing`,
`handle_disconnect`) and the `socketio_token_required` decorator into
pure functions `State → State × List Emit`, where an `Emit` records the
event emitted and its target scope (self, room excluding self, whole
room, or all connections).

Timestamps (`datetime.utcnow()`) and logging are not modelled; Mongo
ObjectIds are modelled as their 24-character hex string form, with
`isValidOid` standing for "ObjectId(s) does not raise InvalidId".
The JWT verifier is passed as a function parameter
(`verifyTok : String → Option String`, token to user-id), and the one
database write the handlers guard with try/except in a way a claim
depends on — `messages_collection.insert_one` — is made fallible
through an explicit `dbFail : Option String` parameter (`some m`
meaning the insert raises an exception whose `str(e)` is `m`).
-/

namespace ChatApp

/-- Python truthiness of an optional string field fetched with
`data.get(...)`: `None` and the empty string are falsy. -/
def falsy : Option String → Bool
  | none => true
  | some s => s == ""

/-- `ObjectId(s)` succeeds exactly on 24-character hex strings
(`bson.ObjectId` raises `InvalidId` otherwise). -/
def isValidOid (s : String) : Bool :=
  s.data.length == 24 && s.data.all (fun c =>
    c.isDigit || ('a' ≤ c && c ≤ 'f') || ('A' ≤ c && c ≤ 'F'))

/-- Python `str.strip()` on the characters in a string: drop leading and
trailing whitespace. -/
def pyStrip (s : String) : String :=
  ⟨((s.data.dropWhile Char.isWhitespace).reverse.dropWhile Char.isWhitespace).reverse⟩

/-- One entry of a room's `members` array (`joined_at` timestamp not
modelled). -/
structure Member where
  user_id : String
  role : String
  deriving Repr, DecidableEq

/-- A document of `rooms_collection`, restricted to the fields the
socket handlers read or write. `room_code` is the `room_id` field that
only private rooms carry (the 8-character join code); `oid` is the
Mongo `_id`. -/
structure Room where
  oid : String
  name : String
  rtype : String
  room_code : Option String
  is_active : Bool
  members : List Member
  deriving Repr, DecidableEq

/-- A document of `users_collection`, restricted to the fields the
socket handlers read or write. `uid` is `str(_id)`. -/
structure User where
  uid : String
  username : String
  display_name : String
  is_online : Bool
  deriving Repr, DecidableEq

/-- A document of `messages_collection` as built by
`handle_send_message` (`timestamp` not modelled; `mid` is the
Mongo-assigned `_id`, modelled as a counter). -/
structure Message where
  mid : Nat
  room_oid : String
  sender_id : String
  content : String
  message_type : String
  edited : Bool
  deleted : Bool
  deriving Repr, DecidableEq

/-- A value of the `active_users` dict. -/
structure ActiveUser where
  user_id : String
  username : String
  display_name : String
  deriving Repr, DecidableEq

/-- The server state the socket handlers read and write: the three
collections, the message-id counter, the per-connection session
(`session['auth_data']['user_id']`, keyed by `request.sid`), the
`active_users` dict and the SocketIO room membership (pairs
(sid, room name) — `join_room`/`leave_room`). -/
structure ServerState where
  users : List User
  rooms : List Room
  messages : List Message
  nextMsgId : Nat
  sessions : List (String × String)
  active_users : List (String × ActiveUser)
  liveRooms : List (String × String)
  deriving Repr, DecidableEq

/-- Target of one `emit`: the requesting connection, a SocketIO room
excluding the requester (`include_self=False`), a whole SocketIO room,
or every connection (`socketio.emit` with no room). -/
inductive Scope where
  | toSelf (sid : String)
  | toRoomExceptSelf (room : String) (sid : String)
  | toRoomAll (room : String)
  | toAll
  deriving Repr, DecidableEq

/-- The outbound event payloads the handlers emit, with the payload
fields each carries in the source. -/
inductive OutEvent where
  | errorMsg (message : String)
  | authErrorMsg (message : String)
  | authenticatedMsg (user_id username display_name : String)
  | userOnline (user_id username display_name : String)
  | roomJoined (room_id room_name : String)
  | userJoinedRoom (user_id username display_name room_id : String)
  | roomLeft (room_id : String)
  | userLeftRoom (user_id username display_name room_id : String)
  | newMessage (mid : Nat) (room_id content sender_id sender_username sender_display : String)
  | userTyping (user_id username display_name room_id : String)
  | userStopTyping (user_id username display_name room_id : String)
  | userOffline (user_id username : String)
  deriving Repr, DecidableEq

/-- One emitted event together with its target scope. -/
structure Emit where
  scope : Scope
  event : OutEvent
  deriving Repr, DecidableEq

/-- Python-dict assignment `d[k] = v` on an association list: replace in
place when the key is present, append otherwise (dicts preserve
insertion order). -/
def setAssoc {α : Type} (l : List (String × α)) (k : String) (v : α) : List (String × α) :=
  if l.any (fun p => p.1 == k) then
    l.map (fun p => if p.1 == k then (k, v) else p)
  else l ++ [(k, v)]

/-- `flask_socketio.join_room`: add (sid, room) to the live room
membership; joining a room twice is a no-op. -/
def sio_join_room (sid rid : String) (l : List (String × String)) : List (String × String) :=
  if (sid, rid) ∈ l then l else (sid, rid) :: l

/-- `flask_socketio.leave_room`: remove (sid, room); a no-op when
absent. -/
def sio_leave_room (sid rid : String) (l : List (String × String)) : List (String × String) :=
  l.filter (fun p => !(p == (sid, rid)))

/-- The `socketio_token_required` decorator (src/app.py lines 108-128):
reject when the session has no truthy `auth_data.user_id`
("Authentication required"), when `ObjectId` on it raises
("Invalid user ID"), or when no user document matches
("User not found"); otherwise hand the user document to the handler. -/
def socketio_token_required (st : ServerState) (sid : String) : Except OutEvent User :=
  match List.lookup sid st.sessions with
  | none => .error (.errorMsg "Authentication required")
  | some uid =>
    if uid = "" then .error (.errorMsg "Authentication required")
    else if !(isValidOid uid) then .error (.errorMsg "Invalid user ID")
    else match st.users.find? (fun u => u.uid == uid) with
      | none => .error (.errorMsg "User not found")
      | some u => .ok u

/-- `handle_authenticate` (src/app.py lines 587-636). `verifyTok` is
`verify_token`; on success the session, the user's `is_online` flag and
`active_users` are updated, `authenticated` goes to the requester and
`user_online` to every connection. The `ObjectId(user_id)` call can
raise `InvalidId`, which the surrounding try/except turns into an
`auth_error` with the exception text. -/
def handle_authenticate (verifyTok : String → Option String) (sid : String)
    (token : Option String) (st : ServerState) : ServerState × List Emit :=
  if falsy token then (st, [⟨.toSelf sid, .authErrorMsg "Token required"⟩])
  else match verifyTok (token.getD "") with
    | none => (st, [⟨.toSelf sid, .authErrorMsg "Invalid token"⟩])
    | some uid =>
      if !(isValidOid uid) then (st, [⟨.toSelf sid, .authErrorMsg "InvalidId"⟩])
      else match st.users.find? (fun u => u.uid == uid) with
        | none => (st, [⟨.toSelf sid, .authErrorMsg "User not found"⟩])
        | some u =>
          ({ st with
              sessions := setAssoc st.sessions sid uid,
              users := st.users.map (fun v =>
                if v.uid == uid then { v with is_online := true } else v),
              active_users := setAssoc st.active_users sid
                ⟨uid, u.username, u.display_name⟩ },
           [⟨.toSelf sid, .authenticatedMsg u.uid u.username u.display_name⟩,
            ⟨.toAll, .userOnline u.uid u.username u.display_name⟩])

/-- `handle_join_room` (src/app.py lines 638-692), the body behind the
decorator: validate the room id resolves to a room document, add the
user to the room's persisted `members` when not already present (role
"member" — there is no room-type, activity or join-code check), join
the SocketIO room, emit `room_joined` to the requester and
`user_joined_room` to the rest of the room. -/
def handle_join_room (u : User) (room_id : Option String) (sid : String)
    (st : ServerState) : ServerState × List Emit :=
  if falsy room_id then (st, [⟨.toSelf sid, .errorMsg "Room ID required"⟩])
  else
    let rid := room_id.getD ""
    if !(isValidOid rid) then (st, [⟨.toSelf sid, .errorMsg "Invalid room ID"⟩])
    else match st.rooms.find? (fun r => r.oid == rid) with
      | none => (st, [⟨.toSelf sid, .errorMsg "Room not found"⟩])
      | some room =>
        let is_member := room.members.any (fun m => m.user_id == u.uid)
        let st1 :=
          if is_member then st
          else { st with rooms := st.rooms.map (fun r =>
                  if r.oid == rid then
                    { r with members := r.members ++ [⟨u.uid, "member"⟩] }
                  else r) }
        ({ st1 with liveRooms := sio_join_room sid rid st1.liveRooms },
         [⟨.toSelf sid, .roomJoined rid room.name⟩,
          ⟨.toRoomExceptSelf rid sid,
            .userJoinedRoom u.uid u.username u.display_name rid⟩])

/-- `handle_leave_room` (src/app.py lines 694-718): leave the SocketIO
room, emit `room_left` to the requester and `user_left_room` to the
remaining room subscribers; no database access at all. -/
def handle_leave_room (u : User) (room_id : Option String) (sid : String)
    (st : ServerState) : ServerState × List Emit :=
  if falsy room_id then (st, [⟨.toSelf sid, .errorMsg "Room ID required"⟩])
  else
    let rid := room_id.getD ""
    ({ st with liveRooms := sio_leave_room sid rid st.liveRooms },
     [⟨.toSelf sid, .roomLeft rid⟩,
      ⟨.toRoomExceptSelf rid sid,
        .userLeftRoom u.uid u.username u.display_name rid⟩])

/-- The payload of a `send_message` event. -/
structure SendPayload where
  room_id : Option String
  content : Option String
  deriving Repr, DecidableEq

/-- `handle_send_message` (src/app.py lines 720-776): require a truthy
room id and non-empty stripped content, resolve the room (no membership
or subscription check), insert the message document, then broadcast
`new_message` to the whole SocketIO room. `dbFail = some m` means
`insert_one` raises with text `m`; the try/except then reports
`error m` to the requester and nothing is persisted or broadcast. -/
def handle_send_message (dbFail : Option String) (u : User) (data : SendPayload)
    (sid : String) (st : ServerState) : ServerState × List Emit :=
  let content := pyStrip (data.content.getD "")
  if falsy data.room_id ∨ content = "" then
    (st, [⟨.toSelf sid, .errorMsg "Room ID and content are required"⟩])
  else
    let rid := data.room_id.getD ""
    if !(isValidOid rid) then (st, [⟨.toSelf sid, .errorMsg "Invalid room ID"⟩])
    else match st.rooms.find? (fun r => r.oid == rid) with
      | none => (st, [⟨.toSelf sid, .errorMsg "Room not found"⟩])
      | some _room =>
        match dbFail with
        | some m => (st, [⟨.toSelf sid, .errorMsg m⟩])
        | none =>
          ({ st with
              messages := st.messages ++
                [⟨st.nextMsgId, rid, u.uid, content, "text", false, false⟩],
              nextMsgId := st.nextMsgId + 1 },
           [⟨.toRoomAll rid,
             .newMessage st.nextMsgId rid content u.uid u.username u.display_name⟩])

/-- `handle_typing` (src/app.py lines 778-789): when the payload has a
truthy room id, broadcast `user_typing` to the room excluding the
requester; otherwise do nothing at all (no error, no state change). -/
def handle_typing (u : User) (room_id : Option String) (sid : String)
    (st : ServerState) : ServerState × List Emit :=
  if falsy room_id then (st, [])
  else
    let rid := room_id.getD ""
    (st, [⟨.toRoomExceptSelf rid sid,
           .userTyping u.uid u.username u.display_name rid⟩])

/-- `handle_stop_typing` (src/app.py lines 791-802): same shape as
`handle_typing`, emitting `user_stop_typing`. -/
def handle_stop_typing (u : User) (room_id : Option String) (sid : String)
    (st : ServerState) : ServerState × List Emit :=
  if falsy room_id then (st, [])
  else
    let rid := room_id.getD ""
    (st, [⟨.toRoomExceptSelf rid sid,
           .userStopTyping u.uid u.username u.display_name rid⟩])

/-- `handle_disconnect` (src/app.py lines 804-826): when the sid is in
`active_users`, set the user's `is_online` to false, broadcast
`user_offline` to every connection and drop the `active_users` entry;
otherwise nothing happens. (If `ObjectId(user_id)` raised — impossible
for entries written by `handle_authenticate` — the uncaught exception
would abort before any write or emit.) The handler never touches the
SocketIO room membership or the sessions, and emits nothing
room-scoped. -/
def handle_disconnect (sid : String) (st : ServerState) : ServerState × List Emit :=
  match List.lookup sid st.active_users with
  | none => (st, [])
  | some au =>
    if isValidOid au.user_id then
      ({ st with
          users := st.users.map (fun v =>
            if v.uid == au.user_id then { v with is_online := false } else v),
          active_users := st.active_users.filter (fun p => !(p.1 == sid)) },
       [⟨.toAll, .userOffline au.user_id au.username⟩])
    else (st, [])

/-- The socket events guarded by `socketio_token_required`, with their
payloads. -/
inductive InEvent where
  | joinRoom (room_id : Option String)
  | leaveRoom (room_id : Option String)
  | sendMessage (data : SendPayload)
  | typingEv (room_id : Option String)
  | stopTypingEv (room_id : Option String)
  deriving Repr, DecidableEq

/-- Dispatch of a guarded socket event: run the
`socketio_token_required` gate, then the event's handler. -/
def dispatch (dbFail : Option String) (sid : String) (ev : InEvent)
    (st : ServerState) : ServerState × List Emit :=
  match socketio_token_required st sid with
  | .error e => (st, [⟨.toSelf sid, e⟩])
  | .ok u =>
    match ev with
    | .joinRoom room_id => handle_join_room u room_id sid st
    | .leaveRoom room_id => handle_leave_room u room_id sid st
    | .sendMessage data => handle_send_message dbFail u data sid st
    | .typingEv room_id => handle_typing u room_id sid st
    | .stopTypingEv room_id => handle_stop_typing u room_id sid st

/-- Discriminator for `user_left_room` emissions. -/
def isUserLeftRoom : OutEvent → Bool
  | .userLeftRoom _ _ _ _ => true
  | _ => false

/-! Concrete fixture data for counterexamples and witnesses. -/

/-- A 24-hex-character ObjectId string for the user alice. -/
def aOid : String := "aaaaaaaaaaaaaaaaaaaaaaaa"

/-- A 24-hex-character ObjectId string for the user bob. -/
def bOid : String := "bbbbbbbbbbbbbbbbbbbbbbbb"

/-- A 24-hex-character ObjectId string for a private room. -/
def rOid : String := "cccccccccccccccccccccccc"

/-- Fixture user alice. -/
def alice : User := ⟨aOid, "alice", "Alice", false⟩

/-- Fixture user bob. -/
def bob : User := ⟨bOid, "bob", "Bob", false⟩

/-- Fixture `active_users` entry for alice. -/
def aliceAU : ActiveUser := ⟨aOid, "alice", "Alice"⟩

/-- Fixture `active_users` entry for bob. -/
def bobAU : ActiveUser := ⟨bOid, "bob", "Bob"⟩

/-- A private, active room with join code "ZZZZ9999" whose only
persisted member is bob. -/
def privRoom : Room := ⟨rOid, "secret", "private", some "ZZZZ9999", true, [⟨bOid, "admin"⟩]⟩

/-- Fixture token verifier: "tokA" is alice's JWT, "tokB" bob's. -/
def vtok : String → Option String :=
  fun t => if t == "tokA" then some aOid else if t == "tokB" then some bOid else none

/-- State in which alice is authenticated on connection "s1" and is not
a member of the private room, holds no join code and is subscribed to
no live room. -/
def stC1 : ServerState :=
  { users := [alice, bob], rooms := [privRoom], messages := [], nextMsgId := 0,
    sessions := [("s1", aOid)], active_users := [("s1", aliceAU)], liveRooms := [] }

/-- State in which alice holds two simultaneously bound connections
"s1" and "s2". -/
def stC2 : ServerState :=
  { users := [{ alice with is_online := true }], rooms := [], messages := [], nextMsgId := 0,
    sessions := [("s1", aOid), ("s2", aOid)],
    active_users := [("s1", aliceAU), ("s2", aliceAU)], liveRooms := [] }

/-- State in which alice holds one bound connection "s1". -/
def stC2a : ServerState :=
  { users := [{ alice with is_online := true }], rooms := [], messages := [], nextMsgId := 0,
    sessions := [("s1", aOid)], active_users := [("s1", aliceAU)], liveRooms := [] }

/-- State in which connection "s1" is already bound to alice. -/
def stC3 : ServerState :=
  { users := [alice, bob], rooms := [], messages := [], nextMsgId := 0,
    sessions := [("s1", aOid)], active_users := [("s1", aliceAU)], liveRooms := [] }

/-- State in which alice ("s1") and bob ("s2") are both authenticated
and both subscribed to the live room of the private room's id. -/
def stC4 : ServerState :=
  { users := [{ alice with is_online := true }, { bob with is_online := true }],
    rooms := [privRoom], messages := [], nextMsgId := 0,
    sessions := [("s1", aOid), ("s2", bOid)],
    active_users := [("s1", aliceAU), ("s2", bobAU)],
    liveRooms := [("s1", rOid), ("s2", rOid)] }

/-- State with no session bound for any connection. -/
def stEmpty : ServerState :=
  { users := [alice], rooms := [privRoom], messages := [], nextMsgId := 0,
    sessions := [], active_users := [], liveRooms := [] }

end ChatApp

namespace ChatApp

/-- Dict assignment stores the value: looking up the assigned key after
`setAssoc` yields the assigned value. -/
theorem lookup_setAssoc {α : Type} (k : String) (v : α) (l : List (String × α)) :
    List.lookup k (setAssoc l k v) = some v := by
  induction l with
  | nil => simp [setAssoc]
  | cons p t ih =>
    obtain ⟨pk, pv⟩ := p
    by_cases hp : pk = k
    · simp [setAssoc, hp, List.lookup_cons]
    · have hp' : (pk == k) = false := by simp [hp]
      have hk : (k == pk) = false := by simp [Ne.symm hp]
      cases ht : t.any (fun q => q.1 == k) with
      | true =>
        simp only [setAssoc, List.any_cons, hp', Bool.false_or, ht, if_true,
          List.map_cons] at ih ⊢
        simp only [hp', Bool.false_eq_true, if_false, List.lookup_cons, hk]
        exact ih
      | false =>
        simp only [setAssoc, List.any_cons, hp', Bool.false_or, ht, Bool.false_eq_true,
          if_false, List.cons_append] at ih ⊢
        simp only [List.lookup_cons, hk]
        exact ih

/-- Case analysis of `handle_send_message`: either it fails, leaving the
state unchanged and emitting a single error to the requester, or every
validation passed, the insert succeeded and the message was appended to
the collection and broadcast to the room. -/
theorem handle_send_message_cases (d : Option String) (u : User) (data : SendPayload)
    (sid : String) (st : ServerState) :
    (∃ m, handle_send_message d u data sid st =
      (st, [⟨Scope.toSelf sid, OutEvent.errorMsg m⟩])) ∨
    (∃ rid room, data.room_id = some rid ∧ d = none ∧
      st.rooms.find? (fun r => r.oid == rid) = some room ∧
      handle_send_message d u data sid st =
        ({ st with
            messages := st.messages ++
              [⟨st.nextMsgId, rid, u.uid, pyStrip (data.content.getD ""), "text", false, false⟩],
            nextMsgId := st.nextMsgId + 1 },
         [⟨Scope.toRoomAll rid,
           OutEvent.newMessage st.nextMsgId rid (pyStrip (data.content.getD ""))
             u.uid u.username u.display_name⟩])) := by
  by_cases hcond : falsy data.room_id = true ∨ pyStrip (data.content.getD "") = ""
  · left
    refine ⟨"Room ID and content are required", ?_⟩
    simp only [handle_send_message]
    rw [if_pos hcond]
  · push_neg at hcond
    obtain ⟨h1, h2⟩ := hcond
    cases hro : data.room_id with
    | none => exact absurd (by rw [hro]; rfl) h1
    | some rid =>
      simp only [handle_send_message]
      rw [hro] at h1 ⊢
      rw [if_neg (by exact fun h => h.elim h1 h2)]
      simp only [Option.getD_some]
      by_cases hoid : isValidOid rid = true
      · rw [if_neg (by simp [hoid])]
        cases hfind : st.rooms.find? (fun r => r.oid == rid) with
        | none => exact Or.inl ⟨"Room not found", rfl⟩
        | some room =>
          cases d with
          | some m => exact Or.inl ⟨m, rfl⟩
          | none => exact Or.inr ⟨rid, room, rfl, rfl, hfind, rfl⟩
      · left
        refine ⟨"Invalid room ID", ?_⟩
        rw [if_pos (by simp [Bool.not_eq_true] at hoid; simp [hoid])]

/-- Claim C1, counterexample: alice is authenticated on "s1", is not a
persisted member of the private room and presents no join code, yet the
socket-level join succeeds — she is appended to the room's persisted
members and `room_joined` / `user_joined_room` are emitted, refuting
"a non-member with no code is never added to a private room's persisted
membership" and "otherwise it fails with no membership change and no
broadcast". -/
theorem C1_counterexample :
    privRoom.rtype = "private" ∧
    privRoom.members.any (fun m => m.user_id == aOid) = false ∧
    (dispatch none "s1" (InEvent.joinRoom (some rOid)) stC1).1.rooms =
      [{ privRoom with members := [⟨bOid, "admin"⟩, ⟨aOid, "member"⟩] }] ∧
    (dispatch none "s1" (InEvent.joinRoom (some rOid)) stC1).2 =
      [⟨Scope.toSelf "s1", OutEvent.roomJoined rOid "secret"⟩,
       ⟨Scope.toRoomExceptSelf rOid "s1", OutEvent.userJoinedRoom aOid "alice" "Alice" rOid⟩] := by
  decide

/-- Claim C1 as amended: the socket-level join performs no private-room
gate at all — for every authenticated connection and every existing
room (public or private alike), a join with the room's id succeeds;
when the identity is not yet a persisted member it is appended with
role "member" (no join code is consulted and no AccessDenied or
InvalidRoomCode error exists on this path), the connection is
subscribed, `room_joined` goes to the requester and `user_joined_room`
to the room's other subscribers. -/
theorem C1_join_no_private_gate
    (d : Option String) (st : ServerState) (sid rid : String) (u : User) (room : Room)
    (hgate : socketio_token_required st sid = Except.ok u)
    (hrid : rid ≠ "") (hoid : isValidOid rid = true)
    (hfind : st.rooms.find? (fun r => r.oid == rid) = some room)
    (hmem : room.members.any (fun m => m.user_id == u.uid) = false) :
    dispatch d sid (InEvent.joinRoom (some rid)) st =
      ({ st with
          rooms := st.rooms.map (fun r =>
            if r.oid == rid then { r with members := r.members ++ [⟨u.uid, "member"⟩] } else r),
          liveRooms := sio_join_room sid rid st.liveRooms },
       [⟨Scope.toSelf sid, OutEvent.roomJoined rid room.name⟩,
        ⟨Scope.toRoomExceptSelf rid sid,
          OutEvent.userJoinedRoom u.uid u.username u.display_name rid⟩]) := by
  simp only [dispatch]
  rw [hgate]
  simp only [handle_join_room, Option.getD_some]
  rw [if_neg (by simp [falsy, hrid]), if_neg (by simp [hoid]), hfind]
  simp only [hmem, Bool.false_eq_true, if_false]

/-- Claim C1 witness: the amended join theorem applied to the concrete
private-room fixture. -/
theorem C1_witness :
    dispatch none "s1" (InEvent.joinRoom (some rOid)) stC1 =
      ({ stC1 with
          rooms := stC1.rooms.map (fun r =>
            if r.oid == rOid then { r with members := r.members ++ [⟨aOid, "member"⟩] } else r),
          liveRooms := sio_join_room "s1" rOid stC1.liveRooms },
       [⟨Scope.toSelf "s1", OutEvent.roomJoined rOid privRoom.name⟩,
        ⟨Scope.toRoomExceptSelf rOid "s1",
          OutEvent.userJoinedRoom aOid "alice" "Alice" rOid⟩]) :=
  C1_join_no_private_gate none stC1 "s1" rOid alice privRoom (by rfl) (by decide)
    (by decide) (by rfl) (by decide)

/-- Claim C2, counterexample: alice already holds a live bound
connection "s1", yet a second connection "s2" binding the same identity
still broadcasts `user_online`; and with two simultaneously bound
connections, disconnecting just one of them still broadcasts
`user_offline` — presence is not reference-counted. -/
theorem C2_counterexample :
    List.lookup "s1" stC2a.active_users = some aliceAU ∧
    (handle_authenticate vtok "s2" (some "tokA") stC2a).2 =
      [⟨Scope.toSelf "s2", OutEvent.authenticatedMsg aOid "alice" "Alice"⟩,
       ⟨Scope.toAll, OutEvent.userOnline aOid "alice" "Alice"⟩] ∧
    List.lookup "s2" stC2.active_users = some aliceAU ∧
    (handle_disconnect "s1" stC2).2 =
      [⟨Scope.toAll, OutEvent.userOffline aOid "alice"⟩] := by
  decide

/-- Claim C2 as amended: presence events are per-connection, not
reference-counted — every successful authenticate broadcasts
`user_online` (whether or not the identity already had live
connections), and every disconnect of a connection present in
`active_users` broadcasts `user_offline` exactly once (whether or not
the identity retains other live connections). -/
theorem C2_presence_not_refcounted
    (verifyTok : String → Option String) (st : ServerState)
    (sid sid2 tok uid : String) (u : User) (au : ActiveUser)
    (htok : tok ≠ "") (hv : verifyTok tok = some uid) (hoid : isValidOid uid = true)
    (hu : st.users.find? (fun v => v.uid == uid) = some u)
    (hau : List.lookup sid2 st.active_users = some au)
    (hoid2 : isValidOid au.user_id = true) :
    (⟨Scope.toAll, OutEvent.userOnline u.uid u.username u.display_name⟩ : Emit) ∈
      (handle_authenticate verifyTok sid (some tok) st).2 ∧
    (handle_disconnect sid2 st).2 =
      [⟨Scope.toAll, OutEvent.userOffline au.user_id au.username⟩] := by
  constructor
  · simp [handle_authenticate, falsy, htok, hv, hoid, hu]
  · simp [handle_disconnect, hau, hoid2]

/-- Claim C2 witness: the amended presence theorem applied to alice's
two-connection fixtures. -/
theorem C2_witness :
    (⟨Scope.toAll, OutEvent.userOnline aOid "alice" "Alice"⟩ : Emit) ∈
      (handle_authenticate vtok "s3" (some "tokA") stC2).2 ∧
    (handle_disconnect "s2" stC2).2 =
      [⟨Scope.toAll, OutEvent.userOffline aOid "alice"⟩] :=
  C2_presence_not_refcounted vtok stC2 "s3" "s2" "tokA" aOid
    { alice with is_online := true } aliceAU (by decide) (by rfl) (by decide)
    (by rfl) (by rfl) (by decide)

/-- Claim C3, counterexample: connection "s1" is already bound to
alice, yet a second authenticate with bob's token succeeds (emitting
`authenticated` and `user_online`, not AlreadyAuthenticated) and the
connection's bound identity is replaced by bob. -/
theorem C3_counterexample :
    List.lookup "s1" stC3.sessions = some aOid ∧
    (handle_authenticate vtok "s1" (some "tokB") stC3).2 =
      [⟨Scope.toSelf "s1", OutEvent.authenticatedMsg bOid "bob" "Bob"⟩,
       ⟨Scope.toAll, OutEvent.userOnline bOid "bob" "Bob"⟩] ∧
    List.lookup "s1" (handle_authenticate vtok "s1" (some "tokB") stC3).1.sessions =
      some bOid := by
  decide

/-- Claim C3 as amended: a connection that already has a bound identity
may authenticate again — there is no AlreadyAuthenticated rejection;
each successful authenticate emits `authenticated` and `user_online`
and rebinds the connection, replacing the previously bound identity in
the session. -/
theorem C3_reauthenticate_rebinds
    (verifyTok : String → Option String) (st : ServerState)
    (sid tok uid olduid : String) (u : User)
    (_hbound : List.lookup sid st.sessions = some olduid)
    (htok : tok ≠ "") (hv : verifyTok tok = some uid) (hoid : isValidOid uid = true)
    (hu : st.users.find? (fun v => v.uid == uid) = some u) :
    (handle_authenticate verifyTok sid (some tok) st).2 =
      [⟨Scope.toSelf sid, OutEvent.authenticatedMsg u.uid u.username u.display_name⟩,
       ⟨Scope.toAll, OutEvent.userOnline u.uid u.username u.display_name⟩] ∧
    List.lookup sid (handle_authenticate verifyTok sid (some tok) st).1.sessions =
      some uid := by
  have key : handle_authenticate verifyTok sid (some tok) st =
      ({ st with
          sessions := setAssoc st.sessions sid uid,
          users := st.users.map (fun v =>
            if v.uid == uid then { v with is_online := true } else v),
          active_users := setAssoc st.active_users sid ⟨uid, u.username, u.display_name⟩ },
       [⟨Scope.toSelf sid, OutEvent.authenticatedMsg u.uid u.username u.display_name⟩,
        ⟨Scope.toAll, OutEvent.userOnline u.uid u.username u.display_name⟩]) := by
    simp [handle_authenticate, falsy, htok, hv, hoid, hu]
  rw [key]
  exact ⟨rfl, lookup_setAssoc _ _ _⟩

/-- Claim C3 witness: the rebind theorem applied to the fixture in
which "s1" is bound to alice and re-authenticates as bob. -/
theorem C3_witness :
    (handle_authenticate vtok "s1" (some "tokB") stC3).2 =
      [⟨Scope.toSelf "s1", OutEvent.authenticatedMsg bOid "bob" "Bob"⟩,
       ⟨Scope.toAll, OutEvent.userOnline bOid "bob" "Bob"⟩] ∧
    List.lookup "s1" (handle_authenticate vtok "s1" (some "tokB") stC3).1.sessions =
      some bOid :=
  C3_reauthenticate_rebinds vtok stC3 "s1" "tokB" bOid aOid bob (by rfl) (by decide)
    (by rfl) (by decide) (by rfl)

/-- Claim C4, counterexample: bob's connection "s2" is subscribed to
the live room alongside alice's "s1", yet on disconnect the cleanup
emits only the global `user_offline` and no `user_left_room` to the
room's remaining subscribers. -/
theorem C4_counterexample :
    ("s2", rOid) ∈ stC4.liveRooms ∧ ("s1", rOid) ∈ stC4.liveRooms ∧
    (handle_disconnect "s2" stC4).2 = [⟨Scope.toAll, OutEvent.userOffline bOid "bob"⟩] ∧
    ((handle_disconnect "s2" stC4).2.all (fun e => !(isUserLeftRoom e.event))) = true := by
  decide

/-- Claim C4 as amended: the disconnect cleanup never emits any
`user_left_room` event (it only drops the `active_users` entry, marks
the user offline and broadcasts `user_offline` when the connection was
authenticated), and it leaves the live room subscriptions untouched. -/
theorem C4_disconnect_no_leave_broadcast (sid : String) (st : ServerState) :
    ((handle_disconnect sid st).2.all (fun e => !(isUserLeftRoom e.event))) = true ∧
    (handle_disconnect sid st).1.liveRooms = st.liveRooms := by
  unfold handle_disconnect
  cases List.lookup sid st.active_users with
  | none => simp
  | some au =>
    by_cases h : isValidOid au.user_id = true
    · simp [h, isUserLeftRoom]
    · simp [h]

/-- Claim C8: a connection with no bound session identity attempting
any guarded event (join, leave, send_message, typing, stop_typing) is
rejected by the `socketio_token_required` gate with a single
"Authentication required" error emitted to that connection only, and
the state is unchanged. -/
theorem C8_unauthenticated_rejected
    (d : Option String) (sid : String) (ev : InEvent) (st : ServerState)
    (h : List.lookup sid st.sessions = none) :
    dispatch d sid ev st =
      (st, [⟨Scope.toSelf sid, OutEvent.errorMsg "Authentication required"⟩]) := by
  unfold dispatch socketio_token_required
  rw [h]

/-- Claim C8 witness: the gate theorem applied to a concrete
unauthenticated connection sending a message. -/
theorem C8_witness :
    dispatch none "s9" (InEvent.sendMessage ⟨some rOid, some "hi"⟩) stEmpty =
      (stEmpty, [⟨Scope.toSelf "s9", OutEvent.errorMsg "Authentication required"⟩]) :=
  C8_unauthenticated_rejected none "s9" (InEvent.sendMessage ⟨some rOid, some "hi"⟩)
    stEmpty (by decide)

/-- Claim C5, counterexample: alice is neither a persisted member of
the private room nor subscribed to any live room, yet her send_message
persists the message and broadcasts `new_message` to the room. -/
theorem C5_counterexample :
    privRoom.members.any (fun m => m.user_id == aOid) = false ∧
    stC1.liveRooms = [] ∧
    (dispatch none "s1" (InEvent.sendMessage ⟨some rOid, some "hi"⟩) stC1).1.messages =
      [⟨0, rOid, aOid, "hi", "text", false, false⟩] ∧
    (dispatch none "s1" (InEvent.sendMessage ⟨some rOid, some "hi"⟩) stC1).2 =
      [⟨Scope.toRoomAll rOid, OutEvent.newMessage 0 rOid "hi" aOid "alice" "Alice"⟩] := by
  decide

/-- Claim C5 as amended: send_message performs no subscription or
persisted-membership check at all — for every authenticated connection,
any room id that resolves to an existing room together with non-empty
stripped content persists the message and broadcasts `new_message` to
the room's subscribers, whether or not the sender is a member or
subscriber. -/
theorem C5_send_no_membership_requirement
    (st : ServerState) (sid rid c : String) (u : User) (room : Room)
    (hgate : socketio_token_required st sid = Except.ok u)
    (hrid : rid ≠ "") (hoid : isValidOid rid = true)
    (hfind : st.rooms.find? (fun r => r.oid == rid) = some room)
    (hc : pyStrip c ≠ "") :
    dispatch none sid (InEvent.sendMessage ⟨some rid, some c⟩) st =
      ({ st with
          messages := st.messages ++
            [⟨st.nextMsgId, rid, u.uid, pyStrip c, "text", false, false⟩],
          nextMsgId := st.nextMsgId + 1 },
       [⟨Scope.toRoomAll rid,
         OutEvent.newMessage st.nextMsgId rid (pyStrip c) u.uid u.username u.display_name⟩]) := by
  simp only [dispatch]
  rw [hgate]
  simp only [handle_send_message, Option.getD_some]
  rw [if_neg (fun h => h.elim (fun h1 => by simp [falsy] at h1; exact hrid h1) hc),
    if_neg (by simp [hoid]), hfind]

/-- Claim C5 witness: the amended send theorem applied to the
non-member, non-subscriber fixture. -/
theorem C5_witness :
    dispatch none "s1" (InEvent.sendMessage ⟨some rOid, some "hi"⟩) stC1 =
      ({ stC1 with
          messages := stC1.messages ++
            [⟨stC1.nextMsgId, rOid, aOid, pyStrip "hi", "text", false, false⟩],
          nextMsgId := stC1.nextMsgId + 1 },
       [⟨Scope.toRoomAll rOid,
         OutEvent.newMessage stC1.nextMsgId rOid (pyStrip "hi") aOid "alice" "Alice"⟩]) :=
  C5_send_no_membership_requirement stC1 "s1" rOid "hi" alice privRoom (by rfl)
    (by decide) (by decide) (by rfl) (by decide)

/-- Claim C6: the `new_message` broadcast happens only for a message
that is durably persisted — whenever a `new_message` event is emitted,
exactly that message document is in the post-state message collection —
and when the insert raises, the state is unchanged (nothing persisted,
no broadcast) and the only emission is a single error to the sender. -/
theorem C6_broadcast_only_after_persist
    (u : User) (data : SendPayload) (sid : String) (st : ServerState) :
    (∀ m, (handle_send_message (some m) u data sid st).1 = st ∧
       ∃ emsg, (handle_send_message (some m) u data sid st).2 =
         [⟨Scope.toSelf sid, OutEvent.errorMsg emsg⟩]) ∧
    (∀ d e, e ∈ (handle_send_message d u data sid st).2 →
       ∀ mid rid c sndr sun sdn, e.event = OutEvent.newMessage mid rid c sndr sun sdn →
         (⟨mid, rid, sndr, c, "text", false, false⟩ : Message) ∈
           (handle_send_message d u data sid st).1.messages) := by
  constructor
  · intro m
    rcases handle_send_message_cases (some m) u data sid st with ⟨m', heq⟩ | ⟨_, _, _, hd, _, _⟩
    · rw [heq]
      exact ⟨rfl, m', rfl⟩
    · cases hd
  · intro d e he mid rid c sndr sun sdn hev
    rcases handle_send_message_cases d u data sid st with ⟨m', heq⟩ | ⟨rid', room, _, _, _, heq⟩
    · rw [heq] at he
      simp only [List.mem_singleton] at he
      subst he
      simp at hev
    · rw [heq] at he ⊢
      simp only [List.mem_singleton] at he
      subst he
      simp only [OutEvent.newMessage.injEq] at hev
      obtain ⟨h1, h2, h3, h4, h5, h6⟩ := hev
      subst h1
      subst h2
      subst h3
      subst h4
      simp

/-- Claim C6 witness: at the concrete fixture, a failing insert leaves
the state unchanged, and the broadcast message of a successful send is
in the persisted collection. -/
theorem C6_witness :
    (handle_send_message (some "db down") alice ⟨some rOid, some "hi"⟩ "s1" stC1).1 = stC1 ∧
    (⟨0, rOid, aOid, "hi", "text", false, false⟩ : Message) ∈
      (handle_send_message none alice ⟨some rOid, some "hi"⟩ "s1" stC1).1.messages := by
  constructor
  · exact ((C6_broadcast_only_after_persist alice ⟨some rOid, some "hi"⟩ "s1" stC1).1
      "db down").1
  · exact (C6_broadcast_only_after_persist alice ⟨some rOid, some "hi"⟩ "s1" stC1).2 none
      ⟨Scope.toRoomAll rOid, OutEvent.newMessage 0 rOid "hi" aOid "alice" "Alice"⟩
      (by decide) 0 rOid "hi" aOid "alice" "Alice" (by rfl)

/-- Claim C7: a send_message whose content is empty after stripping
(absent, empty, or whitespace-only) fails validation with a single
error to the sender, and no message is persisted and nothing is
broadcast (the state is unchanged). -/
theorem C7_empty_content_rejected
    (d : Option String) (sid : String) (st : ServerState) (u : User)
    (roomField contentField : Option String)
    (hgate : socketio_token_required st sid = Except.ok u)
    (hc : pyStrip (contentField.getD "") = "") :
    dispatch d sid (InEvent.sendMessage ⟨roomField, contentField⟩) st =
      (st, [⟨Scope.toSelf sid, OutEvent.errorMsg "Room ID and content are required"⟩]) := by
  simp only [dispatch]
  rw [hgate]
  simp only [handle_send_message]
  rw [if_pos (Or.inr hc)]

/-- Claim C7 witness: whitespace-only content from an authenticated
connection is rejected with the validation error and no state change. -/
theorem C7_witness :
    dispatch none "s1" (InEvent.sendMessage ⟨some rOid, some "   "⟩) stC1 =
      (stC1, [⟨Scope.toSelf "s1", OutEvent.errorMsg "Room ID and content are required"⟩]) :=
  C7_empty_content_rejected none "s1" stC1 alice (some rOid) (some "   ") (by rfl)
    (by decide)

/-- Claim C9: leave removes only the live subscription — the resulting
state differs from the input state only in the live room membership,
with rooms (persisted membership), users, messages, sessions and
active_users all unchanged — and emits `room_left` to the leaver and
`user_left_room` to the room's remaining subscribers. -/
theorem C9_leave_subscription_only
    (d : Option String) (sid rid : String) (st : ServerState) (u : User)
    (hgate : socketio_token_required st sid = Except.ok u)
    (hrid : rid ≠ "") :
    dispatch d sid (InEvent.leaveRoom (some rid)) st =
      ({ st with liveRooms := sio_leave_room sid rid st.liveRooms },
       [⟨Scope.toSelf sid, OutEvent.roomLeft rid⟩,
        ⟨Scope.toRoomExceptSelf rid sid,
          OutEvent.userLeftRoom u.uid u.username u.display_name rid⟩]) ∧
    (dispatch d sid (InEvent.leaveRoom (some rid)) st).1.rooms = st.rooms ∧
    (dispatch d sid (InEvent.leaveRoom (some rid)) st).1.users = st.users ∧
    (dispatch d sid (InEvent.leaveRoom (some rid)) st).1.messages = st.messages ∧
    (dispatch d sid (InEvent.leaveRoom (some rid)) st).1.sessions = st.sessions ∧
    (dispatch d sid (InEvent.leaveRoom (some rid)) st).1.active_users = st.active_users := by
  have key : dispatch d sid (InEvent.leaveRoom (some rid)) st =
      ({ st with liveRooms := sio_leave_room sid rid st.liveRooms },
       [⟨Scope.toSelf sid, OutEvent.roomLeft rid⟩,
        ⟨Scope.toRoomExceptSelf rid sid,
          OutEvent.userLeftRoom u.uid u.username u.display_name rid⟩]) := by
    simp only [dispatch]
    rw [hgate]
    simp only [handle_leave_room, Option.getD_some]
    rw [if_neg (by simp [falsy, hrid])]
  rw [key]
  exact ⟨rfl, rfl, rfl, rfl, rfl, rfl⟩

/-- Claim C9 witness: the leave theorem applied to the fixture in which
alice and bob are both subscribed to the room. -/
theorem C9_witness :
    dispatch none "s1" (InEvent.leaveRoom (some rOid)) stC4 =
      ({ stC4 with liveRooms := sio_leave_room "s1" rOid stC4.liveRooms },
       [⟨Scope.toSelf "s1", OutEvent.roomLeft rOid⟩,
        ⟨Scope.toRoomExceptSelf rOid "s1",
          OutEvent.userLeftRoom aOid "alice" "Alice" rOid⟩]) ∧
    (dispatch none "s1" (InEvent.leaveRoom (some rOid)) stC4).1.rooms = stC4.rooms ∧
    (dispatch none "s1" (InEvent.leaveRoom (some rOid)) stC4).1.users = stC4.users ∧
    (dispatch none "s1" (InEvent.leaveRoom (some rOid)) stC4).1.messages = stC4.messages ∧
    (dispatch none "s1" (InEvent.leaveRoom (some rOid)) stC4).1.sessions = stC4.sessions ∧
    (dispatch none "s1" (InEvent.leaveRoom (some rOid)) stC4).1.active_users =
      stC4.active_users :=
  C9_leave_subscription_only none "s1" rOid stC4 { alice with is_online := true }
    (by rfl) (by decide)

/-- Claim C10: a typing or stop_typing event whose payload lacks a
truthy room_id is silently dropped — no broadcast, no error to the
sender, and no state change of any kind. -/
theorem C10_typing_without_room_silent
    (d : Option String) (sid : String) (st : ServerState) (u : User)
    (roomField : Option String)
    (hgate : socketio_token_required st sid = Except.ok u)
    (h : falsy roomField = true) :
    dispatch d sid (InEvent.typingEv roomField) st = (st, []) ∧
    dispatch d sid (InEvent.stopTypingEv roomField) st = (st, []) := by
  constructor
  · simp only [dispatch]
    rw [hgate]
    simp only [handle_typing]
    rw [if_pos h]
  · simp only [dispatch]
    rw [hgate]
    simp only [handle_stop_typing]
    rw [if_pos h]

/-- Claim C10 witness: a typing payload with no room_id from an
authenticated connection produces no emission and no state change. -/
theorem C10_witness :
    dispatch none "s1" (InEvent.typingEv none) stC1 = (stC1, []) ∧
    dispatch none "s1" (InEvent.stopTypingEv none) stC1 = (stC1, []) :=
  C10_typing_without_room_silent none "s1" stC1 alice none (by rfl) (by decide)

end ChatApp
